import Mathlib

/-!
Verification development for the Pendle snapshot store and analytics engine.

Shallow embedding of the repository sources:
- db.py            : the MarketSnapshot schema and save_snapshot (append path)
- mcp_server.py    : the MCP tool surface (get_all_markets, get_market_history,
                     get_top_markets, get_analytics_summary, compare_markets,
                     calculate_price_change, and the call_tool dispatcher)
- server.py        : the HTTP surface (same SQL-level semantics; the one place
                     it differs, the 404 on an empty history window, is
                     embedded separately)
- ai_insights.py   : simple_trend_insight

Modelling decisions, stated once here:
- SQLite/SQLAlchemy rows are a Lean structure; the table is a List Snapshot in
  rowid (insertion) order.  Timestamps are Nat (ISO strings compare like their
  time values), prices are Option Rat (NULL-able REAL columns; exact rational
  arithmetic stands in for binary floating point, which the claims treat
  exactly).
- ORDER BY is a stable insertion sort on the modelled row order.
- SQL MAX(timestamp) GROUP BY market_id is listMax over the timestamps of the
  rows of one market.
- numpy float special values reached by ai_insights.py (NaN from a leading
  NULL surviving pandas ffill, infinities from a zero mean) are modelled by
  the FVal type, with the IEEE comparison rules the code relies on.
- Python exceptions are Except String; the call_tool dispatcher catch-all is
  an explicit match producing the generic execution-error message.
-/

namespace PendleMCP

/-- One row of the market_snapshots table (db.py, class MarketSnapshot).
raw_json is the opaque payload string; the three numeric columns are nullable. -/
structure Snapshot where
  id : Nat
  market_id : String
  timestamp : Nat
  raw_json : String
  pt_price : Option ℚ
  sy_price : Option ℚ
  tvl : Option ℚ
deriving DecidableEq, Repr

/-- SQL MAX over a list of Nat timestamps; none on the empty list. -/
def listMax : List Nat → Option Nat
  | [] => none
  | t :: ts =>
    match listMax ts with
    | none => some t
    | some u => some (max t u)

/-- The grouped subquery SELECT market_id, MAX(timestamp) ... GROUP BY market_id,
read off for one market: the maximum timestamp among the rows of that market. -/
def maxTs (store : List Snapshot) (m : String) : Option Nat :=
  listMax ((store.filter (fun r => r.market_id == m)).map (fun r => r.timestamp))

/-- The latest-view join used by get_all_markets / get_markets /
get_analytics_summary / get_top_markets:
  SELECT m1.* FROM market_snapshots m1 INNER JOIN
    (SELECT market_id, MAX(timestamp) AS max_ts FROM market_snapshots GROUP BY market_id) m2
  ON m1.market_id = m2.market_id AND m1.timestamp = m2.max_ts
A row survives iff its timestamp equals the maximum timestamp of its market;
every row attaining a tied maximum survives (the join has no id tie-break). -/
def latestView (store : List Snapshot) : List Snapshot :=
  store.filter (fun r => maxTs store r.market_id == some r.timestamp)

/-- Stable insertion of x into l under the Boolean preorder le: x goes in front
of the first element it compares le to, hence after earlier tied elements. -/
def insertBy (le : Snapshot → Snapshot → Bool) (x : Snapshot) : List Snapshot → List Snapshot
  | [] => [x]
  | y :: ys => if le x y then x :: y :: ys else y :: insertBy le x ys

/-- Stable sort by the Boolean preorder le (models SQL ORDER BY on the scanned
row order). -/
def sortBy (le : Snapshot → Snapshot → Bool) (xs : List Snapshot) : List Snapshot :=
  xs.foldr (insertBy le) []

/-- ORDER BY timestamp ASC comparison. -/
def tsLe (a b : Snapshot) : Bool :=
  decide (a.timestamp ≤ b.timestamp)

/-- WHERE market_id = ? AND timestamp >= ? ORDER BY timestamp ASC
(the window query shared by get_market_history, simple_trend_insight and
calculate_price_change; cutoff is now minus the requested window). -/
def query_range (store : List Snapshot) (m : String) (cutoff : Nat) : List Snapshot :=
  sortBy tsLe (store.filter (fun r => r.market_id == m && decide (cutoff ≤ r.timestamp)))

/-- db.py save_snapshot: builds a MarketSnapshot from the arguments, lets the
store assign the autoincrement id and the current timestamp (Column default
utcnow, passed here explicitly as now), appends it and returns the stored row. -/
def save_snapshot (store : List Snapshot) (mid raw : String)
    (pt sy tvl : Option ℚ) (now : Nat) : List Snapshot × Snapshot :=
  let snap : Snapshot :=
    { id := store.length + 1, market_id := mid, timestamp := now,
      raw_json := raw, pt_price := pt, sy_price := sy, tvl := tvl }
  (store ++ [snap], snap)

/-- One row of the history projection: get_market_history SELECTs only
timestamp, pt_price, sy_price, tvl (no raw_json column). -/
structure HistoryRow where
  timestamp : Nat
  pt_price : Option ℚ
  sy_price : Option ℚ
  tvl : Option ℚ
deriving DecidableEq, Repr

/-- Projection of a stored row onto the history SELECT list. -/
def toHistoryRow (r : Snapshot) : HistoryRow :=
  { timestamp := r.timestamp, pt_price := r.pt_price,
    sy_price := r.sy_price, tvl := r.tvl }

/-- Outcome of the MCP get_market_history tool: either the literal
No-history-found message (the branch if not rows) or the data_points count
with the projected rows. -/
inductive HistoryResult where
  | noHistory (market_id : String)
  | ok (data_points : Nat) (history : List HistoryRow)
deriving DecidableEq, Repr

/-- mcp_server.py get_market_history: window query, then either the
No-history-found message on an empty result or the row list. -/
def get_market_history (store : List Snapshot) (m : String) (cutoff : Nat) : HistoryResult :=
  let rows := query_range store m cutoff
  if rows.isEmpty then .noHistory m
  else .ok rows.length (rows.map toHistoryRow)

/-- server.py get_market_history (HTTP surface): same query, but an empty
result raises HTTPException(404) instead of returning a message. -/
def http_get_market_history (store : List Snapshot) (m : String) (cutoff : Nat) :
    Except Nat (Nat × List HistoryRow) :=
  let rows := query_range store m cutoff
  if rows.isEmpty then .error 404
  else .ok (rows.length, rows.map toHistoryRow)

/-- The analytics summary record of get_analytics_summary (the generated_at
timestamp is presentation and not modelled). -/
structure Summary where
  total_markets : Nat
  total_tvl : ℚ
  average_pt_price : ℚ
  total_snapshots : Nat
deriving DecidableEq, Repr

/-- mcp_server.py / server.py get_analytics_summary.  The two Python sums
iterate the latest-view rows guarded by truthiness (if row.tvl /
if row.pt_price), which skips both NULL and 0.0; the average divides by
len(rows), the number of latest-view rows, with the if rows else 0 guard. -/
def get_analytics_summary (store : List Snapshot) : Summary :=
  let rows := latestView store
  { total_markets := ((store.map (fun r => r.market_id)).dedup).length,
    total_snapshots := store.length,
    total_tvl := (((rows.filterMap (fun r => r.tvl)).filter (fun v => v != 0)).sum),
    average_pt_price :=
      if rows.isEmpty then 0
      else (((rows.filterMap (fun r => r.pt_price)).filter (fun v => v != 0)).sum) / rows.length }

/-- ORDER BY m1.tvl DESC comparison: SQLite sorts NULL below every numeric
value, so DESC places NULL rows last. -/
def tvlDescLe (a b : Snapshot) : Bool :=
  match a.tvl, b.tvl with
  | none, none => true
  | none, some _ => false
  | some _, none => true
  | some x, some y => decide (y ≤ x)

/-- mcp_server.py / server.py get_top_markets: latest view, ORDER BY tvl DESC,
LIMIT ?.  A negative LIMIT in SQLite means no upper bound, so only a
nonnegative limit truncates. -/
def get_top_markets (store : List Snapshot) (limit : Int) : List Snapshot :=
  let sorted := sortBy tvlDescLe (latestView store)
  if limit < 0 then sorted else sorted.take limit.toNat

/-- mcp_server.py compare_markets: always executes exactly one SQL query
(the first component counts queries issued against the store).  The grouped
subquery is restricted to WHERE market_id IN (ids); SQLite permits an empty
IN () list, which matches no rows, so an empty ids list yields an empty
comparison from the same single query rather than any up-front rejection. -/
def compare_markets (store : List Snapshot) (market_ids : List String) :
    Nat × List Snapshot :=
  (1, store.filter (fun r =>
        market_ids.contains r.market_id && maxTs store r.market_id == some r.timestamp))

/-- A numpy float value as far as the trend code observes it: a finite
rational, an infinity (finite / 0.0), or NaN (0.0 / 0.0, or any arithmetic on
a NaN produced by a leading NULL that pandas ffill cannot fill). -/
inductive FVal where
  | nan : FVal
  | posinf : FVal
  | neginf : FVal
  | fin : ℚ → FVal
deriving DecidableEq, Repr

/-- IEEE comparison s > c used by the classification: infinity compares as
expected, every comparison on NaN is false. -/
def fgt : FVal → ℚ → Bool
  | .nan, _ => false
  | .posinf, _ => true
  | .neginf, _ => false
  | .fin q, c => decide (c < q)

/-- IEEE comparison s < c. -/
def flt : FVal → ℚ → Bool
  | .nan, _ => false
  | .posinf, _ => false
  | .neginf, _ => true
  | .fin q, c => decide (q < c)

/-- pandas fillna ffill on the pt_price column: each NULL takes the most
recent prior non-NULL value; leading NULLs (acc still none) stay NULL,
i.e. NaN in the resulting float series. -/
def ffill (acc : Option ℚ) : List (Option ℚ) → List (Option ℚ)
  | [] => []
  | some v :: xs => some v :: ffill (some v) xs
  | none :: xs => acc :: ffill acc xs

/-- np.polyfit(x, y, 1)[0] over x = 0, 1, ..., n-1: the closed-form
least-squares slope (n * sum xy - sum x * sum y) / (n * sum x^2 - (sum x)^2).
The denominator is positive for every series of length at least 2; shorter
series never reach this code because of the length gate. -/
def lsSlope (y : List ℚ) : ℚ :=
  let n : ℚ := y.length
  let xs : List ℚ := (List.range y.length).map (fun i => (Nat.cast i : ℚ))
  let sx := xs.sum
  let sxx := (xs.map (fun a => a * a)).sum
  let sxy := ((xs.zip y).map (fun p => p.1 * p.2)).sum
  (n * sxy - sx * y.sum) / (n * sxx - sx * sx)

/-- slope_pct = (coeff / np.mean(y)) * 100 over the ffilled series, with the
float special cases spelled out: a surviving NULL (leading gap) makes the
whole pipeline NaN; a zero mean divides a finite slope by 0.0, giving a
signed infinity, or NaN when the slope is also 0. -/
def slopePctOf (ys : List (Option ℚ)) : FVal :=
  if ys.all (fun o => o.isSome) then
    let y := ys.filterMap id
    let m : ℚ := y.sum / y.length
    let s := lsSlope y
    if m = 0 then
      if 0 < s then .posinf else if s < 0 then .neginf else .nan
    else .fin (s / m * 100)
  else .nan

/-- The four distinct outcomes of ai_insights.simple_trend_insight, keyed by
the insight message the code returns (the trending messages embed the
computed slope_pct). -/
inductive TrendResult where
  | insufficientHistory
  | insufficientPriceData
  | trendingUp (slope_pct : FVal)
  | trendingDown (slope_pct : FVal)
  | stable
deriving DecidableEq, Repr

/-- ai_insights.py simple_trend_insight: window query; fewer than 3 rows is
the not-enough-historical-data message; at least 2 non-NULL pt_price values
gates the computation, otherwise the insufficient-price-data message; the
computed slope_pct classifies by strict comparison against 0.5 / -0.5. -/
def simple_trend_insight (store : List Snapshot) (m : String) (cutoff : Nat) : TrendResult :=
  let rows := query_range store m cutoff
  if rows.length < 3 then .insufficientHistory
  else if 2 ≤ (rows.filterMap (fun r => r.pt_price)).length then
    let s := slopePctOf (ffill none (rows.map (fun r => r.pt_price)))
    if fgt s (1/2) then .trendingUp s
    else if flt s (-(1/2)) then .trendingDown s
    else .stable
  else .insufficientPriceData

/-- Outcome of calculate_price_change when no exception escapes: the
insufficient-data message for fewer than 2 rows, or the result payload
(the 4-decimal rounding in the JSON rendering is presentation and the
unrounded values are carried here). -/
inductive PCOutcome where
  | insufficientData
  | result (pt_change sy_change : ℚ) (start_time end_time : Nat)
      (start_pt end_pt : Option ℚ)
deriving DecidableEq, Repr

/-- The TypeError message raised by the None-minus-float subtraction. -/
def typeErrorMsg : String :=
  "TypeError: unsupported operand types for - (NoneType and float)"

/-- One percentage-change expression of calculate_price_change:
((last - first) / first * 100) if first else 0.
Python truthiness makes both None and 0.0 take the else branch; when first is
truthy and last is None, the subtraction None-minus-float raises TypeError. -/
def pctChange (first last : Option ℚ) : Except String ℚ :=
  match first with
  | none => .ok 0
  | some f =>
    if f = 0 then .ok 0
    else
      match last with
      | some l => .ok ((l - f) / f * 100)
      | none => .error typeErrorMsg

/-- mcp_server.py calculate_price_change: window query on (pt_price,
sy_price, timestamp); fewer than 2 rows is the insufficient-data message;
otherwise first = rows[0], last = rows[-1] and the two pctChange
expressions run in order, any raised TypeError escaping to the caller. -/
def calculate_price_change (store : List Snapshot) (m : String) (cutoff : Nat) :
    Except String PCOutcome :=
  let rows := query_range store m cutoff
  if rows.length < 2 then .ok .insufficientData
  else
    match rows.head?, rows.getLast? with
    | some first, some last =>
      match pctChange first.pt_price last.pt_price with
      | .error e => .error e
      | .ok pt =>
        match pctChange first.sy_price last.sy_price with
        | .error e => .error e
        | .ok sy =>
          .ok (.result pt sy first.timestamp last.timestamp
                first.pt_price last.pt_price)
    | _, _ => .ok .insufficientData

/-- What the call_tool dispatcher hands back for one tool call: the tool
payload, or the generic catch-all message Error executing name colon e. -/
inductive ToolResponse where
  | payload (r : PCOutcome)
  | executionError (msg : String)
deriving DecidableEq, Repr

/-- mcp_server.py call_tool restricted to the calculate_price_change branch:
the try/except Exception wrapper turns any escaping exception into the
generic execution-error text. -/
def call_tool_calculate_price_change (store : List Snapshot) (m : String) (cutoff : Nat) :
    ToolResponse :=
  match calculate_price_change store m cutoff with
  | .ok r => .payload r
  | .error e => .executionError ("Error executing calculate_price_change: " ++ e)

/-- Store with two snapshots of one market sharing the maximal timestamp
(distinct ids 1 and 2): a duplicate-timestamp ingestion of market m. -/
def exStoreC1 : List Snapshot :=
  [{ id := 1, market_id := "m", timestamp := 10, raw_json := "a",
     pt_price := none, sy_price := none, tvl := none },
   { id := 2, market_id := "m", timestamp := 10, raw_json := "b",
     pt_price := none, sy_price := none, tvl := none }]

/-- Store with a single snapshot, for the window-query witnesses. -/
def exStoreC2 : List Snapshot :=
  [{ id := 1, market_id := "m", timestamp := 5, raw_json := "p",
     pt_price := some 1, sy_price := none, tvl := none }]

/-- Store with one snapshot carrying a numeric tvl, for the ranking claims. -/
def exStoreC4 : List Snapshot :=
  [{ id := 1, market_id := "m", timestamp := 5, raw_json := "p",
     pt_price := none, sy_price := none, tvl := some 7 }]

/-- Three snapshots with prices 199, 200, 201: least-squares slope 1, mean
200, normalized slope exactly 0.5 percent. -/
def exStoreHalf : List Snapshot :=
  [{ id := 1, market_id := "m", timestamp := 1, raw_json := "",
     pt_price := some 199, sy_price := none, tvl := none },
   { id := 2, market_id := "m", timestamp := 2, raw_json := "",
     pt_price := some 200, sy_price := none, tvl := none },
   { id := 3, market_id := "m", timestamp := 3, raw_json := "",
     pt_price := some 201, sy_price := none, tvl := none }]

/-- Three snapshots with prices 201, 200, 199: normalized slope exactly
-0.5 percent. -/
def exStoreNegHalf : List Snapshot :=
  [{ id := 1, market_id := "m", timestamp := 1, raw_json := "",
     pt_price := some 201, sy_price := none, tvl := none },
   { id := 2, market_id := "m", timestamp := 2, raw_json := "",
     pt_price := some 200, sy_price := none, tvl := none },
   { id := 3, market_id := "m", timestamp := 3, raw_json := "",
     pt_price := some 199, sy_price := none, tvl := none }]

/-- Three snapshots with prices 100, 102, 104: slope 2, mean 102, normalized
slope 100/51 percent, clearly above the 0.5 threshold. -/
def exStoreUp : List Snapshot :=
  [{ id := 1, market_id := "m", timestamp := 1, raw_json := "",
     pt_price := some 100, sy_price := none, tvl := none },
   { id := 2, market_id := "m", timestamp := 2, raw_json := "",
     pt_price := some 102, sy_price := none, tvl := none },
   { id := 3, market_id := "m", timestamp := 3, raw_json := "",
     pt_price := some 104, sy_price := none, tvl := none }]

/-- Three snapshots with prices 104, 102, 100: normalized slope -100/51
percent, clearly below -0.5. -/
def exStoreDown : List Snapshot :=
  [{ id := 1, market_id := "m", timestamp := 1, raw_json := "",
     pt_price := some 104, sy_price := none, tvl := none },
   { id := 2, market_id := "m", timestamp := 2, raw_json := "",
     pt_price := some 102, sy_price := none, tvl := none },
   { id := 3, market_id := "m", timestamp := 3, raw_json := "",
     pt_price := some 100, sy_price := none, tvl := none }]

/-- Exactly two snapshots in the window: below the 3-point history gate. -/
def exStoreTwoRows : List Snapshot :=
  [{ id := 1, market_id := "m", timestamp := 1, raw_json := "",
     pt_price := some 1, sy_price := none, tvl := none },
   { id := 2, market_id := "m", timestamp := 2, raw_json := "",
     pt_price := some 2, sy_price := none, tvl := none }]

/-- Three snapshots but only one non-NULL pt_price: passes the history gate,
fails the price-data gate. -/
def exStoreOnePrice : List Snapshot :=
  [{ id := 1, market_id := "m", timestamp := 1, raw_json := "",
     pt_price := some 1, sy_price := none, tvl := none },
   { id := 2, market_id := "m", timestamp := 2, raw_json := "",
     pt_price := none, sy_price := none, tvl := none },
   { id := 3, market_id := "m", timestamp := 3, raw_json := "",
     pt_price := none, sy_price := none, tvl := none }]

/-- Two snapshots with pt_price 100 then 110 (the price-change example of the
specification) and a constant sy_price. -/
def exStoreC7 : List Snapshot :=
  [{ id := 1, market_id := "m", timestamp := 1, raw_json := "",
     pt_price := some 100, sy_price := some 5, tvl := none },
   { id := 2, market_id := "m", timestamp := 2, raw_json := "",
     pt_price := some 110, sy_price := some 5, tvl := none }]

/-- Two snapshots whose first pt_price is a non-zero number and whose last
pt_price is NULL: the window that makes the subtraction raise. -/
def exStoreNullLast : List Snapshot :=
  [{ id := 1, market_id := "m", timestamp := 1, raw_json := "",
     pt_price := some 100, sy_price := some 1, tvl := none },
   { id := 2, market_id := "m", timestamp := 2, raw_json := "",
     pt_price := none, sy_price := some 1, tvl := none }]

/-- Another null-last window, for the dispatcher-level claim. -/
def exStoreC10 : List Snapshot :=
  [{ id := 1, market_id := "mm", timestamp := 1, raw_json := "",
     pt_price := some 2, sy_price := none, tvl := none },
   { id := 2, market_id := "mm", timestamp := 3, raw_json := "",
     pt_price := none, sy_price := none, tvl := none }]

/-- Store with a single snapshot, for the comparison claim. -/
def exStoreC9 : List Snapshot :=
  [{ id := 1, market_id := "m9", timestamp := 4, raw_json := "p",
     pt_price := none, sy_price := none, tvl := none }]

theorem listMax_isSome (l : List Nat) (h : l ≠ []) : ∃ v, listMax l = some v := by
  cases l with
  | nil => exact absurd rfl h
  | cons t ts =>
    cases hm : listMax ts with
    | none => exact ⟨t, by simp [listMax, hm]⟩
    | some u => exact ⟨max t u, by simp [listMax, hm]⟩

theorem listMax_mem (l : List Nat) (v : Nat) (h : listMax l = some v) : v ∈ l := by
  induction l generalizing v with
  | nil => simp [listMax] at h
  | cons t ts ih =>
    cases hm : listMax ts with
    | none => simp [listMax, hm] at h; simp [h]
    | some u =>
      simp [listMax, hm] at h
      rcases max_choice t u with he | he
      · rw [he] at h; simp [h]
      · rw [he] at h; subst h; exact List.mem_cons_of_mem _ (ih u hm)

theorem le_listMax (l : List Nat) (v : Nat) (h : listMax l = some v) :
    ∀ x ∈ l, x ≤ v := by
  induction l generalizing v with
  | nil => simp
  | cons t ts ih =>
    intro x hx
    cases hm : listMax ts with
    | none =>
      cases ts with
      | nil =>
        simp [listMax] at h
        rcases List.mem_singleton.mp hx with rfl
        omega
      | cons a as => simp [listMax] at hm; cases hm₂ : listMax as <;> simp [hm₂] at hm
    | some u =>
      simp [listMax, hm] at h
      subst h
      rcases List.mem_cons.mp hx with rfl | hx
      · exact Nat.le_max_left x u
      · exact le_trans (ih u hm x hx) (Nat.le_max_right t u)

theorem mem_insertBy (le : Snapshot → Snapshot → Bool) (x a : Snapshot)
    (l : List Snapshot) : a ∈ insertBy le x l ↔ a = x ∨ a ∈ l := by
  induction l with
  | nil => simp [insertBy]
  | cons y ys ih =>
    simp only [insertBy]
    split
    · simp [List.mem_cons]
    · simp only [List.mem_cons, ih]
      tauto

theorem mem_sortBy (le : Snapshot → Snapshot → Bool) (a : Snapshot)
    (xs : List Snapshot) : a ∈ sortBy le xs ↔ a ∈ xs := by
  induction xs with
  | nil => simp [sortBy]
  | cons y ys ih =>
    simp only [sortBy, List.foldr_cons] at *
    rw [mem_insertBy, ih, List.mem_cons]

theorem length_insertBy (le : Snapshot → Snapshot → Bool) (x : Snapshot)
    (l : List Snapshot) : (insertBy le x l).length = l.length + 1 := by
  induction l with
  | nil => rfl
  | cons y ys ih =>
    simp only [insertBy]
    split <;> simp [ih]

theorem length_sortBy (le : Snapshot → Snapshot → Bool) (xs : List Snapshot) :
    (sortBy le xs).length = xs.length := by
  induction xs with
  | nil => rfl
  | cons y ys ih =>
    simp only [sortBy, List.foldr_cons] at *
    simp [length_insertBy, ih]

theorem pairwise_insertBy (le : Snapshot → Snapshot → Bool)
    (htot : ∀ a b, le a b = true ∨ le b a = true)
    (htrans : ∀ a b c, le a b = true → le b c = true → le a c = true)
    (x : Snapshot) (l : List Snapshot)
    (h : l.Pairwise (fun a b => le a b = true)) :
    (insertBy le x l).Pairwise (fun a b => le a b = true) := by
  induction l with
  | nil => simp [insertBy]
  | cons y ys ih =>
    rcases List.pairwise_cons.mp h with ⟨hy, hys⟩
    simp only [insertBy]
    split
    case isTrue hxy =>
      refine List.pairwise_cons.mpr ⟨?_, h⟩
      intro b hb
      rcases List.mem_cons.mp hb with rfl | hb
      · exact hxy
      · exact htrans x y b hxy (hy b hb)
    case isFalse hxy =>
      have hyx : le y x = true := by
        rcases htot x y with h1 | h1
        · exact absurd h1 hxy
        · exact h1
      refine List.pairwise_cons.mpr ⟨?_, ih hys⟩
      intro b hb
      rcases (mem_insertBy le x b ys).mp hb with rfl | hb
      · exact hyx
      · exact hy b hb

theorem pairwise_sortBy (le : Snapshot → Snapshot → Bool)
    (htot : ∀ a b, le a b = true ∨ le b a = true)
    (htrans : ∀ a b c, le a b = true → le b c = true → le a c = true)
    (xs : List Snapshot) :
    (sortBy le xs).Pairwise (fun a b => le a b = true) := by
  induction xs with
  | nil => simp [sortBy]
  | cons y ys ih =>
    simp only [sortBy, List.foldr_cons] at *
    exact pairwise_insertBy le htot htrans y _ ih

theorem tvlDescLe_total (a b : Snapshot) :
    tvlDescLe a b = true ∨ tvlDescLe b a = true := by
  unfold tvlDescLe
  rcases a.tvl with _ | x <;> rcases b.tvl with _ | y <;> simp
  exact le_total y x

theorem tvlDescLe_trans (a b c : Snapshot) (h1 : tvlDescLe a b = true)
    (h2 : tvlDescLe b c = true) : tvlDescLe a c = true := by
  revert h1 h2
  unfold tvlDescLe
  rcases a.tvl with _ | x <;> rcases b.tvl with _ | y <;> rcases c.tvl with _ | z <;> simp
  exact fun h1 h2 => le_trans h2 h1

theorem sum_filter_truthy (l : List ℚ) :
    (l.filter (fun v => v != 0)).sum = l.sum := by
  induction l with
  | nil => rfl
  | cons a as ih =>
    by_cases h : a = 0
    · subst h; simp [List.filter_cons, ih]
    · simp [List.filter_cons, h, ih]

/-- Claim C3: the analytics summary computes average_pt_price as the sum of
the present (non-NULL) pt_price values over the latest snapshots divided by
the count of latest snapshots (not the count of present prices); with zero
latest snapshots average_pt_price = 0 and total_tvl = 0, and the operation
completes without a division-by-zero fault (the zero case never divides). -/
theorem C3_analytics_average (store : List Snapshot) :
    (get_analytics_summary store).average_pt_price =
      (if (latestView store).isEmpty then 0
       else ((latestView store).filterMap (fun r => r.pt_price)).sum /
         (latestView store).length) ∧
    (get_analytics_summary []).average_pt_price = 0 ∧
    (get_analytics_summary []).total_tvl = 0 := by
  refine ⟨?_, rfl, rfl⟩
  simp only [get_analytics_summary]
  rw [sum_filter_truthy]

/-- Claim C9 (counterexample): compare_markets with the empty market_id list
still executes its one SQL query against the snapshot store (first component
1, not 0) and succeeds with an empty comparison; nothing rejects the input as
InvalidInput before storage is touched. -/
theorem C9_counterexample :
    (compare_markets exStoreC9 []).1 = 1 ∧ (compare_markets exStoreC9 []).2 = [] :=
  ⟨rfl, rfl⟩

/-- Claim C9 (amended): an empty market_id list is not validated away; the
comparison query is issued against storage (exactly one query, whose empty
IN () list SQLite accepts and matches nothing) and the call returns an empty
comparison as a success, surfaced like any other result. -/
theorem C9_compare_empty (store : List Snapshot) :
    compare_markets store [] = (1, []) := by
  unfold compare_markets
  simp

/-- Claim C2 (counterexample): for an unknown market the windowed history
query does not return an empty sequence as a success: the MCP surface returns
the No-history-found message and the HTTP surface raises HTTPException 404. -/
theorem C2_counterexample :
    get_market_history [] "mkt" 0 = .noHistory "mkt" ∧
    http_get_market_history [] "mkt" 0 = .error 404 :=
  ⟨rfl, rfl⟩

/-- Claim C2 (amended): when the market is unknown or has no snapshots in the
window, both query surfaces treat it as an error outcome: the MCP tool
returns the No-history-found message and the HTTP endpoint a 404; only a
non-empty window produces the ordered history rows. -/
theorem C2_history_empty_window (store : List Snapshot) (m : String) (cutoff : Nat) :
    (query_range store m cutoff = [] →
      get_market_history store m cutoff = .noHistory m ∧
      http_get_market_history store m cutoff = .error 404) ∧
    (query_range store m cutoff ≠ [] →
      get_market_history store m cutoff =
        .ok (query_range store m cutoff).length
          ((query_range store m cutoff).map toHistoryRow) ∧
      http_get_market_history store m cutoff =
        .ok ((query_range store m cutoff).length,
          (query_range store m cutoff).map toHistoryRow)) := by
  constructor
  · intro h
    constructor <;> simp [get_market_history, http_get_market_history, h]
  · intro h
    constructor <;> simp [get_market_history, http_get_market_history, h]

/-- Witness for C2_history_empty_window: both arms evaluated, at the empty
store and at a one-snapshot store. -/
theorem C2_history_empty_window_witness :
    get_market_history [] "m" 0 = .noHistory "m" ∧
    get_market_history exStoreC2 "m" 0 =
      .ok (query_range exStoreC2 "m" 0).length
        ((query_range exStoreC2 "m" 0).map toHistoryRow) :=
  ⟨((C2_history_empty_window [] "m" 0).1 rfl).1,
   ((C2_history_empty_window exStoreC2 "m" 0).2 (by decide)).1⟩

/-- Claim C1 (counterexample): with two snapshots of market m sharing the
maximal timestamp 10 (ids 1 and 2), the latest-view join returns both rows
for that single market, not exactly one entry with the larger id: there is
no id tie-break in the code. -/
theorem C1_counterexample :
    ((latestView exStoreC1).filter (fun r => r.market_id == "m")).length = 2 ∧
    ((exStoreC1.map (fun r => r.market_id)).dedup).length = 1 := by
  constructor <;> rfl

/-- Claim C1 (amended): for every market whose maximal timestamp is ts, the
latest view returns precisely the snapshots of that market whose timestamp
equals ts, and at least one such snapshot; when several snapshots tie at ts
they are all returned (no id tie-break). -/
theorem C1_latest_view (store : List Snapshot) (m : String) (ts : Nat)
    (hts : maxTs store m = some ts) :
    (latestView store).filter (fun r => r.market_id == m) =
      store.filter (fun r => r.market_id == m && r.timestamp == ts) ∧
    store.filter (fun r => r.market_id == m && r.timestamp == ts) ≠ [] := by
  constructor
  · rw [latestView, List.filter_filter]
    apply List.filter_congr
    intro r hr
    by_cases hm : r.market_id = m
    · simp only [hm, hts, beq_iff_eq, Option.some.injEq, decide_eq_true_eq]
      by_cases hteq : r.timestamp = ts
      · simp [hteq]
      · simp [hteq, Ne.symm hteq]
    · have hfm : (r.market_id == m) = false := by simpa using hm
      simp [hfm]
  · have hmem : ts ∈ (store.filter (fun r => r.market_id == m)).map
        (fun r => r.timestamp) := listMax_mem _ _ hts
    rcases List.mem_map.mp hmem with ⟨r, hrf, hrts⟩
    rcases List.mem_filter.mp hrf with ⟨hrs, hrm⟩
    apply List.ne_nil_of_mem (a := r)
    refine List.mem_filter.mpr ⟨hrs, ?_⟩
    simp only [Bool.and_eq_true, beq_iff_eq]
    exact ⟨by simpa using hrm, hrts⟩

/-- Witness for C1_latest_view: evaluated at the duplicate-timestamp store,
whose maximal timestamp for market m is 10. -/
theorem C1_latest_view_witness :
    (latestView exStoreC1).filter (fun r => r.market_id == "m") =
      exStoreC1.filter (fun r => r.market_id == "m" && r.timestamp == 10) ∧
    exStoreC1.filter (fun r => r.market_id == "m" && r.timestamp == 10) ≠ [] :=
  C1_latest_view exStoreC1 "m" 10 (by decide)

/-- Claim C4 (counterexample): with one latest snapshot in the store, the
Top-N query with limit -1 (a limit at most 0) returns that snapshot instead
of an empty result: SQLite treats a negative LIMIT as no limit at all. -/
theorem C4_counterexample :
    (get_top_markets exStoreC4 (-1)).length = 1 ∧ (-1 : Int) ≤ 0 := by
  constructor
  · rfl
  · decide

/-- Claim C4 (amended): the Top-N ranking sorts the latest view descending by
tvl with absent tvl sorting last; equal-tvl entries keep the underlying row
order (there is no market_id tie-break); a nonnegative limit truncates to at
most that many entries and limit 0 yields an empty result, but a negative
limit returns the whole sorted latest view; every returned row belongs to the
latest view. -/
theorem C4_top_markets (store : List Snapshot) (limit : Int) :
    (get_top_markets store limit).Pairwise (fun a b => tvlDescLe a b = true) ∧
    get_top_markets store 0 = [] ∧
    (0 ≤ limit → (get_top_markets store limit).length ≤ limit.toNat) ∧
    (limit < 0 → get_top_markets store limit = sortBy tvlDescLe (latestView store)) ∧
    (∀ r, r ∈ get_top_markets store limit → r ∈ latestView store) := by
  have hsorted := pairwise_sortBy tvlDescLe tvlDescLe_total tvlDescLe_trans (latestView store)
  refine ⟨?_, ?_, ?_, ?_, ?_⟩
  · unfold get_top_markets
    split
    · exact hsorted
    · exact hsorted.sublist (List.take_sublist _ _)
  · simp [get_top_markets]
  · intro hpos
    unfold get_top_markets
    rw [if_neg (by omega)]
    exact List.length_take_le _ _
  · intro hneg
    unfold get_top_markets
    rw [if_pos hneg]
  · intro r hr
    unfold get_top_markets at hr
    split at hr
    · exact (mem_sortBy _ _ _).mp hr
    · exact (mem_sortBy _ _ _).mp (List.mem_of_mem_take hr)

/-- Witness for C4_top_markets: both limit arms evaluated at the concrete
one-snapshot store. -/
theorem C4_top_markets_witness :
    (get_top_markets exStoreC4 1).length ≤ (1 : Int).toNat ∧
    get_top_markets exStoreC4 (-2) = sortBy tvlDescLe (latestView exStoreC4) :=
  ⟨(C4_top_markets exStoreC4 1).2.2.1 (by decide),
   (C4_top_markets exStoreC4 (-2)).2.2.2.1 (by decide)⟩

/-- Claim C6: the trend analyzer returns the insufficient-history outcome
whenever fewer than 3 points lie in the window; with at least 3 points but
fewer than 2 non-NULL pt_price values it returns the distinct
insufficient-price-data outcome; only otherwise does it compute a trend
(neither informational outcome is produced then). -/
theorem C6_trend_gates (store : List Snapshot) (m : String) (cutoff : Nat) :
    ((query_range store m cutoff).length < 3 →
      simple_trend_insight store m cutoff = .insufficientHistory) ∧
    (3 ≤ (query_range store m cutoff).length →
      ((query_range store m cutoff).filterMap (fun r => r.pt_price)).length < 2 →
      simple_trend_insight store m cutoff = .insufficientPriceData) ∧
    (3 ≤ (query_range store m cutoff).length →
      2 ≤ ((query_range store m cutoff).filterMap (fun r => r.pt_price)).length →
      simple_trend_insight store m cutoff ≠ .insufficientHistory ∧
      simple_trend_insight store m cutoff ≠ .insufficientPriceData) := by
  refine ⟨?_, ?_, ?_⟩
  · intro h
    simp only [simple_trend_insight]
    rw [if_pos h]
  · intro h3 hp
    simp only [simple_trend_insight]
    rw [if_neg (by omega), if_neg (by omega)]
  · intro h3 hp
    simp only [simple_trend_insight]
    rw [if_neg (by omega), if_pos hp]
    constructor <;> (split <;> try split) <;> simp

/-- Witness for C6_trend_gates: the three arms evaluated at concrete stores
(2 points; 3 points with 1 price; 3 points with 3 prices). -/
theorem C6_trend_gates_witness :
    simple_trend_insight exStoreTwoRows "m" 0 = .insufficientHistory ∧
    simple_trend_insight exStoreOnePrice "m" 0 = .insufficientPriceData ∧
    (simple_trend_insight exStoreUp "m" 0 ≠ .insufficientHistory ∧
     simple_trend_insight exStoreUp "m" 0 ≠ .insufficientPriceData) :=
  ⟨(C6_trend_gates exStoreTwoRows "m" 0).1 (by decide),
   (C6_trend_gates exStoreOnePrice "m" 0).2.1 (by decide) (by decide),
   (C6_trend_gates exStoreUp "m" 0).2.2 (by decide) (by decide)⟩

theorem lsSlope_three (a b c : ℚ) : lsSlope [a, b, c] = (c - a) / 2 := by
  have hr : List.range 3 = [0, 1, 2] := rfl
  simp only [lsSlope, List.length_cons, List.length_nil, hr, List.map_cons, List.map_nil,
    List.zip_cons_cons, List.zip_nil_right, List.sum_cons, List.sum_nil,
    Nat.cast_zero, Nat.cast_one, Nat.cast_ofNat]
  rw [div_eq_div_iff (by norm_num) (by norm_num : (2 : ℚ) ≠ 0)]
  ring

theorem slopePctOf_three (a b c : ℚ) (hm : a + b + c ≠ 0) :
    slopePctOf [some a, some b, some c] =
      .fin ((c - a) / 2 / ((a + b + c) / 3) * 100) := by
  have hfm : List.filterMap id [some a, some b, some c] = [a, b, c] := rfl
  simp only [slopePctOf, List.all_cons, List.all_nil, Option.isSome_some, Bool.and_self,
    Bool.and_true, if_true, hfm, List.sum_cons, List.sum_nil, List.length_cons,
    List.length_nil, Nat.cast_ofNat]
  rw [lsSlope_three]
  have hsum : a + (b + (c + 0)) = a + b + c := by ring
  have hcast : ((0 + 1 + 1 + 1 : ℕ) : ℚ) = 3 := by norm_num
  rw [hsum, hcast, if_neg (div_ne_zero hm (by norm_num : (3 : ℚ) ≠ 0))]

/-- Claim C5 (counterexample): the series 199, 200, 201 has least-squares
slope 1 and mean 200, so its normalized slope is exactly 0.5 percent, yet the
code classifies it stable (the comparison is strict); symmetrically the
series 201, 200, 199 normalizes to exactly -0.5 percent and is also
classified stable, not trending down. -/
theorem C5_counterexample :
    simple_trend_insight exStoreHalf "m" 0 = .stable ∧
    simple_trend_insight exStoreNegHalf "m" 0 = .stable := by
  constructor
  · have hq : query_range exStoreHalf "m" 0 = exStoreHalf := by decide
    have hf : ffill none (exStoreHalf.map (fun r => r.pt_price)) =
        [some 199, some 200, some 201] := by decide
    have hs : slopePctOf (ffill none (exStoreHalf.map (fun r => r.pt_price))) =
        .fin (1/2) := by
      rw [hf, slopePctOf_three 199 200 201 (by norm_num)]
      norm_num
    have hgt : fgt (FVal.fin (1/2)) (1/2) = false := by norm_num [fgt]
    have hlt : flt (FVal.fin (1/2)) (-(1/2)) = false := by norm_num [flt]
    simp only [simple_trend_insight, hq, hs, hgt, hlt]
    rw [if_neg (by decide), if_pos (by decide)]
    simp
  · have hq : query_range exStoreNegHalf "m" 0 = exStoreNegHalf := by decide
    have hf : ffill none (exStoreNegHalf.map (fun r => r.pt_price)) =
        [some 201, some 200, some 199] := by decide
    have hs : slopePctOf (ffill none (exStoreNegHalf.map (fun r => r.pt_price))) =
        .fin (-(1/2)) := by
      rw [hf, slopePctOf_three 201 200 199 (by norm_num)]
      norm_num
    have hgt : fgt (FVal.fin (-(1/2))) (1/2) = false := by norm_num [fgt]
    have hlt : flt (FVal.fin (-(1/2))) (-(1/2)) = false := by norm_num [flt]
    simp only [simple_trend_insight, hq, hs, hgt, hlt]
    rw [if_neg (by decide), if_pos (by decide)]
    simp

/-- Claim C5 (amended): for a windowed series that passes both
data-sufficiency gates and whose normalized least-squares slope is the finite
value q, the classification is trending up iff q is strictly above 0.5,
trending down iff q is strictly below -0.5, and stable for every q in the
closed interval from -0.5 to 0.5, the endpoints included. -/
theorem C5_trend_classification (store : List Snapshot) (m : String) (cutoff : Nat)
    (q : ℚ)
    (h3 : 3 ≤ (query_range store m cutoff).length)
    (h2 : 2 ≤ ((query_range store m cutoff).filterMap (fun r => r.pt_price)).length)
    (hs : slopePctOf (ffill none ((query_range store m cutoff).map (fun r => r.pt_price))) =
      .fin q) :
    (1/2 < q → simple_trend_insight store m cutoff = .trendingUp (.fin q)) ∧
    (q < -(1/2) → simple_trend_insight store m cutoff = .trendingDown (.fin q)) ∧
    (-(1/2) ≤ q → q ≤ 1/2 → simple_trend_insight store m cutoff = .stable) := by
  have hmain : simple_trend_insight store m cutoff =
      (if fgt (.fin q) (1/2) then .trendingUp (.fin q)
       else if flt (.fin q) (-(1/2)) then .trendingDown (.fin q) else .stable) := by
    simp only [simple_trend_insight]
    rw [if_neg (by omega), if_pos h2, hs]
  refine ⟨?_, ?_, ?_⟩
  · intro hq
    rw [hmain, if_pos (by simp only [fgt, decide_eq_true_eq]; exact hq)]
  · intro hq
    rw [hmain,
      if_neg (by
        simp only [fgt, decide_eq_true_eq]
        exact not_lt.mpr (le_of_lt (lt_trans hq (by norm_num)))),
      if_pos (by simp only [flt, decide_eq_true_eq]; exact hq)]
  · intro hlo hhi
    rw [hmain,
      if_neg (by simp only [fgt, decide_eq_true_eq]; exact not_lt.mpr hhi),
      if_neg (by simp only [flt, decide_eq_true_eq]; exact not_lt.mpr hlo)]

/-- Witness for C5_trend_classification: all three arms evaluated, at the
clearly-up series 100, 102, 104 (q = 100/51), the clearly-down mirror series
(q = -100/51), and the boundary series 199, 200, 201 (q exactly 1/2, stable). -/
theorem C5_trend_classification_witness :
    simple_trend_insight exStoreUp "m" 0 = .trendingUp (.fin (100/51)) ∧
    simple_trend_insight exStoreDown "m" 0 = .trendingDown (.fin (-(100/51))) ∧
    simple_trend_insight exStoreHalf "m" 0 = .stable := by
  have hsUp : slopePctOf (ffill none ((query_range exStoreUp "m" 0).map
      (fun r => r.pt_price))) = .fin (100/51) := by
    have hq : query_range exStoreUp "m" 0 = exStoreUp := by decide
    have hf : ffill none (exStoreUp.map (fun r => r.pt_price)) =
        [some 100, some 102, some 104] := by decide
    rw [hq, hf, slopePctOf_three 100 102 104 (by norm_num)]
    norm_num
  have hsDown : slopePctOf (ffill none ((query_range exStoreDown "m" 0).map
      (fun r => r.pt_price))) = .fin (-(100/51)) := by
    have hq : query_range exStoreDown "m" 0 = exStoreDown := by decide
    have hf : ffill none (exStoreDown.map (fun r => r.pt_price)) =
        [some 104, some 102, some 100] := by decide
    rw [hq, hf, slopePctOf_three 104 102 100 (by norm_num)]
    norm_num
  have hsHalf : slopePctOf (ffill none ((query_range exStoreHalf "m" 0).map
      (fun r => r.pt_price))) = .fin (1/2) := by
    have hq : query_range exStoreHalf "m" 0 = exStoreHalf := by decide
    have hf : ffill none (exStoreHalf.map (fun r => r.pt_price)) =
        [some 199, some 200, some 201] := by decide
    rw [hq, hf, slopePctOf_three 199 200 201 (by norm_num)]
    norm_num
  exact ⟨(C5_trend_classification exStoreUp "m" 0 (100/51)
      (by decide) (by decide) hsUp).1 (by norm_num),
    (C5_trend_classification exStoreDown "m" 0 (-(100/51))
      (by decide) (by decide) hsDown).2.1 (by norm_num),
    (C5_trend_classification exStoreHalf "m" 0 (1/2)
      (by decide) (by decide) hsHalf).2.2 (by norm_num) (by norm_num)⟩

/-- Claim C7 (counterexample): in a 2-point window whose first pt_price is
the non-zero number 100 and whose last pt_price is NULL, the calculator does
not produce a numeric pct_change and does not treat the case as a degenerate
zero: the None-minus-float subtraction raises a TypeError that escapes the
function. -/
theorem C7_counterexample :
    calculate_price_change exStoreNullLast "m" 0 = .error typeErrorMsg := by
  rfl

/-- Claim C7 (amended): with fewer than 2 points in the window the calculator
returns the informational insufficient-data outcome; with at least 2 points,
and provided the last point carries both prices, it returns pct_change(field)
computed as (last - first) / first * 100 when the first value is present and
non-zero, and 0 when the first value is NULL or zero, together with the raw
first and last values and timestamps.  (When the first value is present and
non-zero but the last is NULL, no result is produced: see the separate
dispatcher-level theorem for that failure.) -/
theorem C7_price_change (store : List Snapshot) (m : String) (cutoff : Nat) :
    ((query_range store m cutoff).length < 2 →
      calculate_price_change store m cutoff = .ok .insufficientData) ∧
    (∀ r0 rl : Snapshot, ∀ lpt lsy : ℚ,
      2 ≤ (query_range store m cutoff).length →
      (query_range store m cutoff).head? = some r0 →
      (query_range store m cutoff).getLast? = some rl →
      rl.pt_price = some lpt → rl.sy_price = some lsy →
      calculate_price_change store m cutoff =
        .ok (.result
          (match r0.pt_price with
           | none => 0
           | some f => if f = 0 then 0 else (lpt - f) / f * 100)
          (match r0.sy_price with
           | none => 0
           | some f => if f = 0 then 0 else (lsy - f) / f * 100)
          r0.timestamp rl.timestamp r0.pt_price rl.pt_price)) := by
  constructor
  · intro h
    simp only [calculate_price_change]
    rw [if_pos h]
  · intro r0 rl lpt lsy hlen hh hl hpt hsy
    simp only [calculate_price_change]
    rw [if_neg (by omega), hh, hl]
    rcases hp : r0.pt_price with _ | f
    · rcases hs : r0.sy_price with _ | g
      · simp [pctChange, hpt, hsy, hp, hs]
      · by_cases hg : g = 0 <;> simp [pctChange, hpt, hsy, hp, hs, hg]
    · rcases hs : r0.sy_price with _ | g
      · by_cases hf : f = 0 <;> simp [pctChange, hpt, hsy, hp, hs, hf]
      · by_cases hf : f = 0 <;> by_cases hg : g = 0 <;>
          simp [pctChange, hpt, hsy, hp, hs, hf, hg]

/-- Witness for C7_price_change: both arms evaluated, at the empty store and
at the 100-to-110 window of the specification example (10 percent change,
constant sy_price giving 0). -/
theorem C7_price_change_witness :
    calculate_price_change [] "m" 0 = .ok .insufficientData ∧
    calculate_price_change exStoreC7 "m" 0 =
      .ok (.result 10 0 1 2 (some 100) (some 110)) := by
  constructor
  · exact (C7_price_change [] "m" 0).1 (by decide)
  · have h := (C7_price_change exStoreC7 "m" 0).2
      { id := 1, market_id := "m", timestamp := 1, raw_json := "",
        pt_price := some 100, sy_price := some 5, tvl := none }
      { id := 2, market_id := "m", timestamp := 2, raw_json := "",
        pt_price := some 110, sy_price := some 5, tvl := none }
      110 5 (by decide) (by decide) (by decide) rfl rfl
    rw [h]
    norm_num

/-- Claim C10: when the window has at least 2 points, the first pt_price is a
non-zero number and the last pt_price is NULL, the tool does not return a
price-change payload: the subtraction raises, and the call_tool dispatcher
surfaces the generic execution-error message for calculate_price_change. -/
theorem C10_dispatcher_error (store : List Snapshot) (m : String) (cutoff : Nat)
    (r0 rl : Snapshot) (v : ℚ)
    (hlen : 2 ≤ (query_range store m cutoff).length)
    (hh : (query_range store m cutoff).head? = some r0)
    (hl : (query_range store m cutoff).getLast? = some rl)
    (hp0 : r0.pt_price = some v) (hv : v ≠ 0) (hpl : rl.pt_price = none) :
    call_tool_calculate_price_change store m cutoff =
      .executionError ("Error executing calculate_price_change: " ++ typeErrorMsg) := by
  have hcalc : calculate_price_change store m cutoff = .error typeErrorMsg := by
    simp only [calculate_price_change]
    rw [if_neg (by omega), hh, hl]
    simp [pctChange, hp0, hpl, hv]
  simp [call_tool_calculate_price_change, hcalc]

/-- Witness for C10_dispatcher_error: evaluated at the concrete null-last
window of market mm. -/
theorem C10_dispatcher_error_witness :
    call_tool_calculate_price_change exStoreC10 "mm" 0 =
      .executionError ("Error executing calculate_price_change: " ++ typeErrorMsg) :=
  C10_dispatcher_error exStoreC10 "mm" 0
    { id := 1, market_id := "mm", timestamp := 1, raw_json := "",
      pt_price := some 2, sy_price := none, tvl := none }
    { id := 2, market_id := "mm", timestamp := 3, raw_json := "",
      pt_price := none, sy_price := none, tvl := none }
    2 (by decide) (by decide) (by decide) rfl (by decide) rfl

/-- Claim C8 (counterexample): two appends that differ only in the raw
payload produce bit-identical history outputs, and the concrete output shows
the full shape of a history row: timestamp and the three numeric fields only.
The range query therefore cannot return the raw payload at all, contradicting
the identical-raw-payload half of the round-trip claim (the payload is only
surfaced by the detail lookup, which is not the range query). -/
theorem C8_counterexample :
    get_market_history (save_snapshot [] "m" "payloadA" (some 1) none none 5).1 "m" 0 =
      get_market_history (save_snapshot [] "m" "payloadB" (some 1) none none 5).1 "m" 0 ∧
    get_market_history (save_snapshot [] "m" "payloadA" (some 1) none none 5).1 "m" 0 =
      .ok 1 [{ timestamp := 5, pt_price := some 1, sy_price := none, tvl := none }] ∧
    "payloadA" ≠ "payloadB" := by
  refine ⟨rfl, rfl, by decide⟩

/-- Claim C8 (amended): the stored record returned by save_snapshot carries
the appended raw payload and numeric fields unchanged, and a subsequent
history query whose window covers the assigned timestamp returns a row with
that timestamp and those numeric fields; the raw payload is not part of the
history projection. -/
theorem C8_round_trip (store : List Snapshot) (mid raw : String)
    (pt sy tvl : Option ℚ) (now cutoff : Nat) (h : cutoff ≤ now) :
    (save_snapshot store mid raw pt sy tvl now).2.raw_json = raw ∧
    (save_snapshot store mid raw pt sy tvl now).2.pt_price = pt ∧
    (save_snapshot store mid raw pt sy tvl now).2.sy_price = sy ∧
    (save_snapshot store mid raw pt sy tvl now).2.tvl = tvl ∧
    (save_snapshot store mid raw pt sy tvl now).2.timestamp = now ∧
    get_market_history (save_snapshot store mid raw pt sy tvl now).1 mid cutoff =
      .ok (query_range (save_snapshot store mid raw pt sy tvl now).1 mid cutoff).length
        ((query_range (save_snapshot store mid raw pt sy tvl now).1 mid cutoff).map
          toHistoryRow) ∧
    ({ timestamp := now, pt_price := pt, sy_price := sy, tvl := tvl } : HistoryRow) ∈
      (query_range (save_snapshot store mid raw pt sy tvl now).1 mid cutoff).map
        toHistoryRow := by
  have hsnapmem : (save_snapshot store mid raw pt sy tvl now).2 ∈
      query_range (save_snapshot store mid raw pt sy tvl now).1 mid cutoff := by
    apply (mem_sortBy _ _ _).mpr
    apply List.mem_filter.mpr
    refine ⟨?_, ?_⟩
    · simp [save_snapshot]
    · simp [save_snapshot, h]
  have hrow : ({ timestamp := now, pt_price := pt, sy_price := sy, tvl := tvl } :
      HistoryRow) ∈
      (query_range (save_snapshot store mid raw pt sy tvl now).1 mid cutoff).map
        toHistoryRow := by
    have := List.mem_map_of_mem toHistoryRow hsnapmem
    simpa [save_snapshot, toHistoryRow] using this
  refine ⟨rfl, rfl, rfl, rfl, rfl, ?_, hrow⟩
  simp only [get_market_history]
  rw [if_neg]
  simp only [List.isEmpty_iff]
  exact List.ne_nil_of_mem hsnapmem

/-- Witness for C8_round_trip: evaluated at an append of market w8 with
payload raw, pt_price 3 and tvl 4, queried with cutoff 2 covering the
assigned timestamp 7. -/
theorem C8_round_trip_witness :
    get_market_history (save_snapshot [] "w8" "raw" (some 3) none (some 4) 7).1 "w8" 2 =
      .ok (query_range (save_snapshot [] "w8" "raw" (some 3) none (some 4) 7).1 "w8" 2).length
        ((query_range (save_snapshot [] "w8" "raw" (some 3) none (some 4) 7).1 "w8" 2).map
          toHistoryRow) ∧
    ({ timestamp := 7, pt_price := some 3, sy_price := none, tvl := some 4 } :
      HistoryRow) ∈
      (query_range (save_snapshot [] "w8" "raw" (some 3) none (some 4) 7).1 "w8" 2).map
        toHistoryRow :=
  ⟨(C8_round_trip [] "w8" "raw" (some 3) none (some 4) 7 2 (by decide)).2.2.2.2.2.1,
   (C8_round_trip [] "w8" "raw" (some 3) none (some 4) 7 2 (by decide)).2.2.2.2.2.2⟩

end PendleMCP
